import Mathlib

/-!
Shallow embedding of src/plugin/shim/clap_entry.c (the CLAP plugin shim that
bridges a single plugin instance to an embedded OCaml runtime).

Modelling conventions:
- An OCaml `value` is modelled as a natural number.  The sentinel `Val_unit`
  is 1, matching the OCaml representation of the unit value (Val_int 0 = 1).
- The per-callback `static const value *` caches resolve `caml_named_value`
  names against a fixed registration table of the embedded runtime; that
  table is modelled by `BridgeEnv`, which records which of the five named
  entry points (daw_bridge_init / destroy / activate / deactivate / process)
  resolve, and the value the init entry point returns.
- The observable actions of a callback (caml_callback invocations, global
  root registration and removal, calloc and free of native memory) are
  recorded as an ordered `List Effect`, in the order the C code performs
  them; state mutation is explicit state passing of `daw_bridge_state_t`.
- The C `double sample_rate` is only copied across the boundary, never
  computed with, so it is carried as an abstract exact numeric value (Rat).
- Host pointers, the opaque `void *process` audio-block argument, and
  extension pointers carry no structure used by the code, so each is
  modelled as a plain natural-number identifier.
-/

abbrev Value := Nat

/-- OCaml Val_unit (the representation of the unit value, Val_int 0 = 1);
clap_entry.c uses it as the sentinel for a never-initialized handle. -/
def Val_unit : Value := 1

/-- clap_plugin_descriptor_t from clap_entry.c (string fields and the
feature-tag list). -/
structure clap_plugin_descriptor_t where
  id : String
  name : String
  vendor : String
  url : String
  manual_url : String
  support_url : String
  version : String
  description : String
  features : List String
deriving Repr, DecidableEq

/-- s_descriptor: the single static descriptor configured in clap_entry.c. -/
def s_descriptor : clap_plugin_descriptor_t :=
  { id := "com.dancer.daw-bridge"
    name := "DAW Bridge"
    vendor := "Dancer"
    url := "https://github.com/dancer/me"
    manual_url := ""
    support_url := ""
    version := "1.0.0"
    description := "MCP Bridge for AI control of DAW"
    features := ["utility", "analyzer"] }

/-- daw_bridge_state_t: the per-instance native state (the pinned OCaml
value and the weak host back-reference). -/
structure daw_bridge_state_t where
  ocaml_plugin : Value
  host : Nat
deriving Repr, DecidableEq

/-- The embedded runtime as seen through caml_named_value: which of the five
named entry points resolve (non-NULL), and the handle daw_bridge_init
returns when called. -/
structure BridgeEnv where
  has_init : Bool
  has_destroy : Bool
  has_activate : Bool
  has_deactivate : Bool
  has_process : Bool
  init_result : Value
deriving Repr, DecidableEq

/-- Observable actions of a shim callback, in program order. -/
inductive Effect where
  | camlCallbackInit
  | camlCallbackDestroy (h : Value)
  | camlCallbackActivate (h : Value) (sampleRate : Rat) (maxFrames : Nat)
  | camlCallbackDeactivate (h : Value)
  | camlCallbackProcess (h : Value)
  | registerGlobalRoot
  | removeGlobalRoot
  | allocPlugin
  | allocState
  | freeState
  | freePlugin
deriving Repr, DecidableEq

/-- Whether an effect is a caml_callback into the embedded runtime. -/
def Effect.isBridgeCall : Effect → Bool
  | .camlCallbackInit => true
  | .camlCallbackDestroy _ => true
  | .camlCallbackActivate _ _ _ => true
  | .camlCallbackDeactivate _ => true
  | .camlCallbackProcess _ => true
  | _ => false

/-- plugin_init (clap_entry.c lines 119-133): if daw_bridge_init resolves,
call it, store the returned value, register it as a global root, and return
true; otherwise return false with no effect. -/
def plugin_init (env : BridgeEnv) (s : daw_bridge_state_t) :
    Bool × daw_bridge_state_t × List Effect :=
  if env.has_init then
    (true, { s with ocaml_plugin := env.init_result },
     [Effect.camlCallbackInit, Effect.registerGlobalRoot])
  else
    (false, s, [])

/-- plugin_destroy (clap_entry.c lines 135-150): if daw_bridge_destroy
resolves and the stored value is not Val_unit, call it and remove the global
root; then unconditionally free the state and the plugin struct.  The stored
value field is never reset to Val_unit. -/
def plugin_destroy (env : BridgeEnv) (s : daw_bridge_state_t) :
    daw_bridge_state_t × List Effect :=
  if env.has_destroy = true ∧ s.ocaml_plugin ≠ Val_unit then
    (s, [Effect.camlCallbackDestroy s.ocaml_plugin, Effect.removeGlobalRoot,
         Effect.freeState, Effect.freePlugin])
  else
    (s, [Effect.freeState, Effect.freePlugin])

/-- plugin_activate (clap_entry.c lines 152-171): if daw_bridge_activate
resolves, call it with the stored value, the sample rate, and max_frames
(min_frames is discarded), and return true; otherwise return false. -/
def plugin_activate (env : BridgeEnv) (s : daw_bridge_state_t)
    (sample_rate : Rat) (min_frames max_frames : Nat) :
    Bool × List Effect :=
  if env.has_activate then
    (true, [Effect.camlCallbackActivate s.ocaml_plugin sample_rate max_frames])
  else
    (false, [])

/-- plugin_deactivate (clap_entry.c lines 173-183): if daw_bridge_deactivate
resolves, call it with the stored value; no return value. -/
def plugin_deactivate (env : BridgeEnv) (s : daw_bridge_state_t) :
    List Effect :=
  if env.has_deactivate then
    [Effect.camlCallbackDeactivate s.ocaml_plugin]
  else
    []

/-- plugin_start_processing (clap_entry.c lines 185-188): ignores the plugin
and returns true; no state change, no effect. -/
def plugin_start_processing (s : daw_bridge_state_t) :
    Bool × daw_bridge_state_t × List Effect :=
  (true, s, [])

/-- plugin_stop_processing (clap_entry.c lines 190-192): no-op. -/
def plugin_stop_processing (s : daw_bridge_state_t) :
    daw_bridge_state_t × List Effect :=
  (s, [])

/-- plugin_reset (clap_entry.c lines 194-196): no-op. -/
def plugin_reset (s : daw_bridge_state_t) :
    daw_bridge_state_t × List Effect :=
  (s, [])

/-- plugin_process (clap_entry.c lines 198-212): if daw_bridge_process
resolves, call it with the stored value; the audio-block pointer is
discarded and the return is always 0 (CLAP_PROCESS_CONTINUE). -/
def plugin_process (env : BridgeEnv) (s : daw_bridge_state_t)
    (audioBlock : Nat) : Int × List Effect :=
  (0, if env.has_process then [Effect.camlCallbackProcess s.ocaml_plugin]
      else [])

/-- plugin_get_extension (clap_entry.c lines 214-218): ignores both
arguments and returns NULL. -/
def plugin_get_extension (s : daw_bridge_state_t) (id : String) :
    Option Nat :=
  none

/-- plugin_on_main_thread (clap_entry.c lines 220-222): no-op. -/
def plugin_on_main_thread (s : daw_bridge_state_t) :
    daw_bridge_state_t × List Effect :=
  (s, [])

/-- factory_get_plugin_count (clap_entry.c lines 225-228): returns 1. -/
def factory_get_plugin_count : Nat := 1

/-- factory_get_plugin_descriptor (clap_entry.c lines 230-234): the static
descriptor at index 0, NULL elsewhere. -/
def factory_get_plugin_descriptor (index : Nat) :
    Option clap_plugin_descriptor_t :=
  if index = 0 then some s_descriptor else none

/-- factory_create_plugin (clap_entry.c lines 236-265): NULL when plugin_id
differs from the descriptor id; otherwise calloc the plugin struct and the
state, store the host back-reference, and set the stored value to Val_unit. -/
def factory_create_plugin (host : Nat) (plugin_id : String) :
    Option daw_bridge_state_t × List Effect :=
  if plugin_id = s_descriptor.id then
    (some { ocaml_plugin := Val_unit, host := host },
     [Effect.allocPlugin, Effect.allocState])
  else
    (none, [])

/-- The static factory table (opaque: merely a non-NULL token the entry
point can hand out). -/
inductive FactoryRef where
  | s_factory
deriving Repr, DecidableEq

/-- entry_get_factory (clap_entry.c lines 288-293): the factory table for
the identifier clap.plugin-factory, NULL for every other identifier. -/
def entry_get_factory (factory_id : String) : Option FactoryRef :=
  if factory_id = "clap.plugin-factory" then some FactoryRef.s_factory
  else none

/-! ## Claim theorems -/

/-- Claim C1, counterexample: destroy is not idempotent.  With all entry
points resolved and the handle bound (value 5), the second destroy call on
the same instance again invokes the bridge destroy callback, again removes
the global root, and again frees the native state; across the two calls the
global root is removed twice. -/
theorem destroy_double_release_cex :
    Effect.camlCallbackDestroy 5 ∈
      (plugin_destroy ⟨true, true, true, true, true, 5⟩
        (plugin_destroy ⟨true, true, true, true, true, 5⟩ ⟨5, 0⟩).1).2 ∧
    Effect.removeGlobalRoot ∈
      (plugin_destroy ⟨true, true, true, true, true, 5⟩
        (plugin_destroy ⟨true, true, true, true, true, 5⟩ ⟨5, 0⟩).1).2 ∧
    Effect.freeState ∈
      (plugin_destroy ⟨true, true, true, true, true, 5⟩
        (plugin_destroy ⟨true, true, true, true, true, 5⟩ ⟨5, 0⟩).1).2 ∧
    ((plugin_destroy ⟨true, true, true, true, true, 5⟩ ⟨5, 0⟩).2 ++
      (plugin_destroy ⟨true, true, true, true, true, 5⟩
        (plugin_destroy ⟨true, true, true, true, true, 5⟩ ⟨5, 0⟩).1).2).count
      Effect.removeGlobalRoot = 2 := by decide

/-- Claim C1, amended: a single destroy call removes the global root at most
once and skips both the bridge destroy callback and the un-pin when the
handle is the unbound sentinel, but every destroy call frees the native
state unconditionally (so a second call on the same instance repeats the
release actions: the handle field is never reset to the sentinel). -/
theorem destroy_single_call_release (env : BridgeEnv)
    (s : daw_bridge_state_t) :
    (plugin_destroy env s).2.count Effect.removeGlobalRoot ≤ 1 ∧
    (s.ocaml_plugin = Val_unit →
      (plugin_destroy env s).2 = [Effect.freeState, Effect.freePlugin]) ∧
    Effect.freeState ∈ (plugin_destroy env s).2 ∧
    (plugin_destroy env s).1 = s := by
  unfold plugin_destroy
  split
  · rename_i h
    refine ⟨by simp [List.count_cons], ?_, by simp, rfl⟩
    intro hu
    exact absurd hu h.2
  · exact ⟨by simp [List.count_cons], fun _ => rfl, by simp, rfl⟩

/-- Claim C1, witness for the amended theorem at a concrete never-bound
instance. -/
theorem destroy_single_call_release_witness :
    (plugin_destroy ⟨true, true, true, true, true, 5⟩ ⟨1, 0⟩).2 =
      [Effect.freeState, Effect.freePlugin] :=
  (destroy_single_call_release ⟨true, true, true, true, true, 5⟩
    ⟨1, 0⟩).2.1 rfl

/-- Claim C2, counterexample: with all entry points resolved, deactivate,
process and activate each invoke their bridge entry point on an instance
whose handle is still the unbound sentinel Val_unit, passing that sentinel
as the handle. -/
theorem bridge_call_unbound_handle_cex :
    plugin_deactivate ⟨true, true, true, true, true, 5⟩ ⟨Val_unit, 0⟩ =
      [Effect.camlCallbackDeactivate Val_unit] ∧
    (plugin_process ⟨true, true, true, true, true, 5⟩ ⟨Val_unit, 0⟩ 0).2 =
      [Effect.camlCallbackProcess Val_unit] ∧
    (plugin_activate ⟨true, true, true, true, true, 5⟩ ⟨Val_unit, 0⟩
        48000 64 512).2 =
      [Effect.camlCallbackActivate Val_unit 48000 512] := by
  exact ⟨rfl, rfl, rfl⟩

/-- Claim C2, amended: only destroy confirms the handle is bound before its
bridge call (with the sentinel handle it performs no bridge call at all);
activate, deactivate and process are guarded solely by entry-point
resolution and pass the current handle value, bound or not. -/
theorem bridge_call_guards (env : BridgeEnv) (s : daw_bridge_state_t)
    (sr : Rat) (mn mx blk : Nat) :
    (s.ocaml_plugin = Val_unit →
      (plugin_destroy env s).2.countP (fun e => e.isBridgeCall) = 0) ∧
    plugin_deactivate env s =
      (if env.has_deactivate then
        [Effect.camlCallbackDeactivate s.ocaml_plugin] else []) ∧
    (plugin_process env s blk).2 =
      (if env.has_process then
        [Effect.camlCallbackProcess s.ocaml_plugin] else []) ∧
    (plugin_activate env s sr mn mx).2 =
      (if env.has_activate then
        [Effect.camlCallbackActivate s.ocaml_plugin sr mx] else []) := by
  refine ⟨?_, rfl, ?_, ?_⟩
  · intro hu
    unfold plugin_destroy
    split
    · rename_i h
      exact absurd hu h.2
    · rfl
  · unfold plugin_process
    split <;> rfl
  · unfold plugin_activate
    split <;> rfl

/-- Claim C2, witness for the amended theorem: destroy with the sentinel
handle makes no bridge call, and the other three follow their
entry-point-resolution guard, at concrete inputs. -/
theorem bridge_call_guards_witness :
    (plugin_destroy ⟨true, true, true, true, true, 5⟩ ⟨1, 0⟩).2.countP
      (fun e => e.isBridgeCall) = 0 ∧
    plugin_deactivate ⟨true, true, true, true, true, 5⟩ ⟨1, 0⟩ =
      [Effect.camlCallbackDeactivate 1] :=
  ⟨(bridge_call_guards ⟨true, true, true, true, true, 5⟩ ⟨1, 0⟩
      48000 64 512 0).1 rfl,
   (bridge_call_guards ⟨true, true, true, true, true, 5⟩ ⟨1, 0⟩
      48000 64 512 0).2.1⟩

/-- Claim C3, counterexample: on a freshly created instance, with no
startProcessing call ever made and the process entry point resolved,
process is neither rejected nor a runtime-call-free no-op: it returns 0
(continue) and performs a bridge call to daw_bridge_process. -/
theorem process_before_start_cex :
    (factory_create_plugin 7 "com.dancer.daw-bridge").1 =
      some { ocaml_plugin := Val_unit, host := 7 } ∧
    (plugin_process ⟨true, true, true, true, true, 5⟩ ⟨Val_unit, 7⟩ 0).1 =
      0 ∧
    (plugin_process ⟨true, true, true, true, true, 5⟩ ⟨Val_unit, 7⟩ 0).2 =
      [Effect.camlCallbackProcess Val_unit] := by decide

/-- Claim C3, amended: the shim keeps no Processing state at all.
startProcessing always returns true, changes nothing and performs no
runtime call, and process behaves identically whether or not
startProcessing was called before it, always returning 0 (continue). -/
theorem process_ignores_processing_state (env : BridgeEnv)
    (s : daw_bridge_state_t) (blk : Nat) :
    plugin_start_processing s = (true, s, []) ∧
    plugin_process env (plugin_start_processing s).2.1 blk =
      plugin_process env s blk ∧
    (plugin_process env s blk).1 = 0 := ⟨rfl, rfl, rfl⟩

/-- Claim C4: init returns success exactly when daw_bridge_init resolves;
on success it stores the returned handle and registers exactly one global
root (so create followed by a successful init yields exactly one pin), and
on failure it leaves the instance unchanged with no effect. -/
theorem init_success_iff_resolved (env : BridgeEnv)
    (s : daw_bridge_state_t) :
    (plugin_init env s).1 = env.has_init ∧
    (env.has_init = true →
      (plugin_init env s).2.2.count Effect.registerGlobalRoot = 1 ∧
      (plugin_init env s).2.1.ocaml_plugin = env.init_result) ∧
    (env.has_init = false → plugin_init env s = (false, s, [])) ∧
    (∀ host s0, (factory_create_plugin host s_descriptor.id).1 = some s0 →
      env.has_init = true →
      (plugin_init env s0).2.2.count Effect.registerGlobalRoot = 1) := by
  unfold plugin_init
  refine ⟨?_, ?_, ?_, ?_⟩
  · split <;> simp_all
  · intro h
    simp [h, List.count_cons]
  · intro h
    simp [h]
  · intro host s0 hs0 h
    simp [h, List.count_cons]

/-- Claim C4, witness: with the init entry point resolved and returning
handle 5, init on a freshly created instance succeeds, binds 5, and
registers exactly one global root. -/
theorem init_success_iff_resolved_witness :
    (plugin_init ⟨true, true, true, true, true, 5⟩ ⟨1, 7⟩).2.2.count
      Effect.registerGlobalRoot = 1 ∧
    (plugin_init ⟨true, true, true, true, true, 5⟩ ⟨1, 7⟩).2.1.ocaml_plugin =
      5 ∧
    plugin_init ⟨false, true, true, true, true, 5⟩ ⟨1, 7⟩ =
      (false, ⟨1, 7⟩, []) :=
  ⟨((init_success_iff_resolved ⟨true, true, true, true, true, 5⟩
      ⟨1, 7⟩).2.1 rfl).1,
   ((init_success_iff_resolved ⟨true, true, true, true, true, 5⟩
      ⟨1, 7⟩).2.1 rfl).2,
   (init_success_iff_resolved ⟨false, true, true, true, true, 5⟩
      ⟨1, 7⟩).2.2.1 rfl⟩

/-- Claim C5: create returns NULL with no allocation for every identity
string other than the descriptor id; for the matching id it allocates and
returns a fresh instance with the handle at the unbound sentinel Val_unit
and the host stored as back-reference. -/
theorem create_identity_check (host : Nat) (plugin_id : String) :
    (plugin_id ≠ s_descriptor.id →
      factory_create_plugin host plugin_id = (none, [])) ∧
    (plugin_id = s_descriptor.id →
      factory_create_plugin host plugin_id =
        (some { ocaml_plugin := Val_unit, host := host },
         [Effect.allocPlugin, Effect.allocState])) := by
  unfold factory_create_plugin
  constructor
  · intro h
    simp [h]
  · intro h
    simp [h]

/-- Claim C5, witness: an unknown identity yields NULL with no allocation;
the configured identity yields a Created instance with sentinel handle. -/
theorem create_identity_check_witness :
    factory_create_plugin 3 "com.example.unknown" = (none, []) ∧
    factory_create_plugin 3 "com.dancer.daw-bridge" =
      (some { ocaml_plugin := Val_unit, host := 3 },
       [Effect.allocPlugin, Effect.allocState]) :=
  ⟨(create_identity_check 3 "com.example.unknown").1 (by decide),
   (create_identity_check 3 "com.dancer.daw-bridge").2 rfl⟩

/-- Claim C6: process always returns 0 (continue) for every environment,
instance state and audio block; it performs at most one bridge call; and
its entire result is independent of the audio-block argument. -/
theorem process_always_continue (env : BridgeEnv)
    (s : daw_bridge_state_t) (b b2 : Nat) :
    (plugin_process env s b).1 = 0 ∧
    (plugin_process env s b).2.countP (fun e => e.isBridgeCall) ≤ 1 ∧
    plugin_process env s b = plugin_process env s b2 := by
  refine ⟨rfl, ?_, rfl⟩
  unfold plugin_process
  split <;> simp [Effect.isBridgeCall]

/-- Claim C7: activate succeeds exactly when daw_bridge_activate resolves;
on success it forwards the handle, the sample rate and max_frames (not
min_frames: the whole result is independent of min_frames); when
unresolved, no runtime call is made. -/
theorem activate_forwards_rate_maxblock (env : BridgeEnv)
    (s : daw_bridge_state_t) (sr : Rat) (mn mx mn2 : Nat) :
    (plugin_activate env s sr mn mx).1 = env.has_activate ∧
    (env.has_activate = true →
      (plugin_activate env s sr mn mx).2 =
        [Effect.camlCallbackActivate s.ocaml_plugin sr mx]) ∧
    (env.has_activate = false → (plugin_activate env s sr mn mx).2 = []) ∧
    plugin_activate env s sr mn mx = plugin_activate env s sr mn2 mx := by
  unfold plugin_activate
  refine ⟨?_, ?_, ?_, rfl⟩
  · split <;> simp_all
  · intro h
    simp [h]
  · intro h
    simp [h]

/-- Claim C7, witness: activate at 48000 Hz with min 64 and max 512 forwards
exactly the rate and 512 when resolved, and makes no call when the activate
entry point is unresolved. -/
theorem activate_forwards_rate_maxblock_witness :
    (plugin_activate ⟨true, true, true, true, true, 5⟩ ⟨5, 0⟩
        48000 64 512).2 =
      [Effect.camlCallbackActivate 5 48000 512] ∧
    (plugin_activate ⟨true, true, false, true, true, 5⟩ ⟨5, 0⟩
        48000 64 512).2 = [] :=
  ⟨(activate_forwards_rate_maxblock ⟨true, true, true, true, true, 5⟩
      ⟨5, 0⟩ 48000 64 512 64).2.1 rfl,
   (activate_forwards_rate_maxblock ⟨true, true, false, true, true, 5⟩
      ⟨5, 0⟩ 48000 64 512 64).2.2.1 rfl⟩

/-- Claim C8: the factory reports one plugin, returns the configured
descriptor (identity com.dancer.daw-bridge) at index 0, and returns none at
every other index. -/
theorem descriptor_registry_spec (i : Nat) :
    factory_get_plugin_count = 1 ∧
    factory_get_plugin_descriptor 0 = some s_descriptor ∧
    s_descriptor.id = "com.dancer.daw-bridge" ∧
    (i ≠ 0 → factory_get_plugin_descriptor i = none) := by
  refine ⟨rfl, rfl, rfl, ?_⟩
  intro h
  unfold factory_get_plugin_descriptor
  simp [h]

/-- Claim C8, witness at index 1. -/
theorem descriptor_registry_spec_witness :
    factory_get_plugin_descriptor 1 = none :=
  (descriptor_registry_spec 1).2.2.2 (by decide)

/-- Claim C9: getFactory hands out the factory table exactly for the
identifier clap.plugin-factory, and NULL for every other identifier. -/
theorem get_factory_identifier (factory_id : String) :
    (factory_id = "clap.plugin-factory" →
      entry_get_factory factory_id = some FactoryRef.s_factory) ∧
    (factory_id ≠ "clap.plugin-factory" →
      entry_get_factory factory_id = none) := by
  unfold entry_get_factory
  constructor
  · intro h
    simp [h]
  · intro h
    simp [h]

/-- Claim C9, witness: the recognized identifier and one unrecognized
identifier. -/
theorem get_factory_identifier_witness :
    entry_get_factory "clap.plugin-factory" = some FactoryRef.s_factory ∧
    entry_get_factory "clap.other" = none :=
  ⟨(get_factory_identifier "clap.plugin-factory").1 rfl,
   (get_factory_identifier "clap.other").2 (by decide)⟩

/-- Claim C10: getExtension returns none for every instance and every
extension identifier, and reset and onMainThread return the instance
unchanged with no bridge call or other effect. -/
theorem extension_reset_mainthread_noop (s : daw_bridge_state_t)
    (id : String) :
    plugin_get_extension s id = none ∧
    plugin_reset s = (s, []) ∧
    plugin_on_main_thread s = (s, []) := ⟨rfl, rfl, rfl⟩
